/-
Verification of the rustrtc core against its specification.

Shallow embedding of:
  * `IceConn` (src/transports/ice/conn.rs): the per-remote-endpoint packet
    demultiplexer with latching and first-byte triage, and its send path.
  * `StatsCollector` (src/stats_collector.rs): the RTP/RTCP stats observer.
  * `extract_payload_map_helper` (tests/rtp_reinvite_test.rs): the rtpmap
    parsing helper.
  * Spec-modelled parts (code not present in the sources at hand): the RTP
    sender header construction (spec section 4.4) and the receiver latching
    dispatch (spec section 4.4).

Rust side effects (receiver invocations, socket writes, log lines) are made
explicit as traces; `tokio::sync::RwLock` state becomes explicit state
passing.  Machine integers are Nat with an explicit `% 2^64` where the Rust
code performs u64 arithmetic that may wrap.
-/
import Mathlib

namespace RustRtc

/-! ## Socket addresses

`std::net::SocketAddr` reduced to what the code inspects: an opaque host
part and a port.  Port 0 is the "unspecified" address. -/

structure SocketAddr where
  host : Nat
  port : Nat
deriving DecidableEq, Repr

/-! ## IceConn (src/transports/ice/conn.rs)

The state a call can observe: the current remote address and whether a DTLS
/ RTP receiver is registered (the receivers themselves are opaque `dyn
PacketReceiver`s; we record invocations in a trace).  A datagram is a list
of byte values. -/

structure IceConnState where
  remote_addr : SocketAddr
  has_dtls_receiver : Bool
  has_rtp_receiver : Bool
deriving DecidableEq, Repr

/-- Observable effects of `IceConn::receive`: a call into the registered
DTLS receiver, a call into the registered RTP receiver (each carrying the
packet and source address), or the `warn!` emitted when a DTLS-range packet
arrives with no DTLS receiver registered. -/
inductive IceCall where
  | dtlsRecv (packet : List Nat) (addr : SocketAddr)
  | rtpRecv (packet : List Nat) (addr : SocketAddr)
  | warnNoDtlsReceiver
deriving DecidableEq, Repr

/-- `IceConn::receive` (conn.rs lines 47-89).  First the latching step: if
`remote_addr` is unspecified (port 0) adopt the source address, else if the
source differs update it (the code updates unconditionally, logging a debug
line).  Then, unless the packet is empty, branch on the first byte:
`[20,64)` to the DTLS receiver (warn if none), `[128,192)` to the RTP
receiver (silent drop if none), anything else falls through. -/
def IceConn.receive (st : IceConnState) (packet : List Nat) (addr : SocketAddr) :
    IceConnState × List IceCall :=
  let remote :=
    if st.remote_addr.port = 0 then addr
    else if addr ≠ st.remote_addr then addr
    else st.remote_addr
  let st := { st with remote_addr := remote }
  match packet with
  | [] => (st, [])
  | first_byte :: _ =>
    if 20 ≤ first_byte ∧ first_byte < 64 then
      if st.has_dtls_receiver then (st, [IceCall.dtlsRecv packet addr])
      else (st, [IceCall.warnNoDtlsReceiver])
    else if 128 ≤ first_byte ∧ first_byte < 192 then
      if st.has_rtp_receiver then (st, [IceCall.rtpRecv packet addr])
      else (st, [])
    else (st, [])

/-- `IceConn::send` (conn.rs lines 36-42): error out with
"Remote address not set" when the remote port is 0, otherwise hand the
buffer to `socket.send_to(buf, remote)`.  The second component records the
datagrams written to the socket. -/
def IceConn.send (st : IceConnState) (buf : List Nat) :
    Except String Nat × List (List Nat × SocketAddr) :=
  if st.remote_addr.port = 0 then
    (Except.error "Remote address not set", [])
  else
    (Except.ok buf.length, [(buf, st.remote_addr)])

end RustRtc

namespace RustRtc

/-! ## Claim theorems for IceConn -/

/-- The latching step of `receive` runs before the demultiplexing branch,
so the resulting remote address depends only on the prior state and the
source address, never on the packet contents. -/
theorem receive_remote_addr_eq (st : IceConnState) (packet : List Nat)
    (addr : SocketAddr) :
    (IceConn.receive st packet addr).1.remote_addr =
      if st.remote_addr.port = 0 then addr
      else if addr ≠ st.remote_addr then addr
      else st.remote_addr := by
  cases packet with
  | nil => rfl
  | cons b rest =>
    simp only [IceConn.receive]
    split
    · split <;> rfl
    · split
      · split <;> rfl
      · rfl

/-- Claim C1: for every non-empty inbound datagram, `IceConn::receive`
routes solely by the first byte: `[20,64)` goes to the DTLS receiver
(warning when none is registered), `[128,192)` with an RTP receiver
registered calls that receiver exactly once with the packet, and any other
first byte invokes neither receiver. -/
theorem receive_routes_by_first_byte (st : IceConnState) (b : Nat)
    (rest : List Nat) (addr : SocketAddr) :
    (20 ≤ b ∧ b < 64 → st.has_dtls_receiver = true →
      (IceConn.receive st (b :: rest) addr).2 = [IceCall.dtlsRecv (b :: rest) addr]) ∧
    (20 ≤ b ∧ b < 64 → st.has_dtls_receiver = false →
      (IceConn.receive st (b :: rest) addr).2 = [IceCall.warnNoDtlsReceiver]) ∧
    (128 ≤ b ∧ b < 192 → st.has_rtp_receiver = true →
      (IceConn.receive st (b :: rest) addr).2 = [IceCall.rtpRecv (b :: rest) addr]) ∧
    (¬(20 ≤ b ∧ b < 64) → ¬(128 ≤ b ∧ b < 192) →
      (IceConn.receive st (b :: rest) addr).2 = []) := by
  refine ⟨?_, ?_, ?_, ?_⟩
  · intro h1 h2
    simp [IceConn.receive, h1, h2]
  · intro h1 h2
    simp [IceConn.receive, h1, h2]
  · intro h1 h2
    have hne : ¬(20 ≤ b ∧ b < 64) := by omega
    simp [IceConn.receive, h1, h2, hne]
  · intro h1 h2
    simp [IceConn.receive, h1, h2]

/-- Witness for C1: concrete instances of all four routing branches. -/
theorem receive_routes_by_first_byte_witness :
    (IceConn.receive ⟨⟨1, 7⟩, true, true⟩ [22, 0] ⟨1, 7⟩).2 =
        [IceCall.dtlsRecv [22, 0] ⟨1, 7⟩] ∧
    (IceConn.receive ⟨⟨1, 7⟩, false, true⟩ [22, 0] ⟨1, 7⟩).2 =
        [IceCall.warnNoDtlsReceiver] ∧
    (IceConn.receive ⟨⟨1, 7⟩, true, true⟩ [144, 5] ⟨1, 7⟩).2 =
        [IceCall.rtpRecv [144, 5] ⟨1, 7⟩] ∧
    (IceConn.receive ⟨⟨1, 7⟩, true, true⟩ [0, 1] ⟨1, 7⟩).2 = [] :=
  ⟨(receive_routes_by_first_byte ⟨⟨1, 7⟩, true, true⟩ 22 [0] ⟨1, 7⟩).1
      (by decide) rfl,
   ((receive_routes_by_first_byte ⟨⟨1, 7⟩, false, true⟩ 22 [0] ⟨1, 7⟩).2.1
      (by decide) rfl),
   ((receive_routes_by_first_byte ⟨⟨1, 7⟩, true, true⟩ 144 [5] ⟨1, 7⟩).2.2.1
      (by decide) rfl),
   ((receive_routes_by_first_byte ⟨⟨1, 7⟩, true, true⟩ 0 [1] ⟨1, 7⟩).2.2.2
      (by decide) (by decide))⟩

/-- Counterexample to claim C2: a packet whose first byte is 128 (RTP
range, not a STUN Binding Request) arriving from a new source address does
migrate `remote_addr`: the code (conn.rs lines 52-62) updates the remote
address for any packet from a differing source. -/
theorem nonStun_packet_migrates_remote :
    (IceConn.receive ⟨⟨1, 5000⟩, true, true⟩ [128] ⟨2, 6000⟩).1.remote_addr
        = ⟨2, 6000⟩ ∧ (⟨2, 6000⟩ : SocketAddr) ≠ ⟨1, 5000⟩ := by
  constructor
  · rfl
  · decide

/-- Claim C2 (amended): for every inbound packet whose source address
differs from the current, already-specified (non-zero-port) remote address,
`IceConn::receive` updates `remote_addr` to the new source, whether or not
the packet is a STUN Binding Request. -/
theorem receive_migrates_on_any_new_source (st : IceConnState)
    (packet : List Nat) (addr : SocketAddr)
    (hspec : st.remote_addr.port ≠ 0) (hnew : addr ≠ st.remote_addr) :
    (IceConn.receive st packet addr).1.remote_addr = addr := by
  rw [receive_remote_addr_eq]
  simp [hspec, hnew]

/-- Witness for the amended C2 at a concrete state and packet. -/
theorem receive_migrates_on_any_new_source_witness :
    (IceConn.receive ⟨⟨1, 5000⟩, true, true⟩ [128] ⟨2, 6000⟩).1.remote_addr
        = ⟨2, 6000⟩ :=
  receive_migrates_on_any_new_source ⟨⟨1, 5000⟩, true, true⟩ [128] ⟨2, 6000⟩
    (by decide) (by decide)

/-- Claim C5: `IceConn::send` fails with "Remote address not set" and
writes nothing to the socket when the current remote address has port 0;
otherwise it writes exactly the buffer, addressed to the current remote
address. -/
theorem send_requires_remote (st : IceConnState) (buf : List Nat) :
    (st.remote_addr.port = 0 →
      IceConn.send st buf = (Except.error "Remote address not set", [])) ∧
    (st.remote_addr.port ≠ 0 →
      IceConn.send st buf = (Except.ok buf.length, [(buf, st.remote_addr)])) := by
  constructor <;> intro h <;> simp [IceConn.send, h]

/-- Witness for C5: both the unset-remote error and the successful write. -/
theorem send_requires_remote_witness :
    IceConn.send ⟨⟨3, 0⟩, false, false⟩ [1, 2]
        = (Except.error "Remote address not set", []) ∧
    IceConn.send ⟨⟨3, 9⟩, false, false⟩ [1, 2]
        = (Except.ok 2, [([1, 2], ⟨3, 9⟩)]) :=
  ⟨(send_requires_remote ⟨⟨3, 0⟩, false, false⟩ [1, 2]).1 rfl,
   (send_requires_remote ⟨⟨3, 9⟩, false, false⟩ [1, 2]).2 (by decide)⟩

/-- Claim C9: `IceConn.receive` is total (it is a Lean function, defined on
every input, and the empty case is discharged before the first byte is
read); on an empty datagram neither receiver is invoked, yet the
remote-address latching has already happened: an empty datagram from a new
source (or one arriving while the remote is unspecified) still changes
`remote_addr`. -/
theorem receive_empty_total (st : IceConnState) (addr : SocketAddr) :
    (IceConn.receive st [] addr).2 = [] ∧
    (st.remote_addr.port = 0 →
      (IceConn.receive st [] addr).1.remote_addr = addr) ∧
    (st.remote_addr.port ≠ 0 → addr ≠ st.remote_addr →
      (IceConn.receive st [] addr).1.remote_addr = addr) := by
  refine ⟨rfl, ?_, ?_⟩
  · intro h; simp [IceConn.receive, h]
  · intro h1 h2; simp [IceConn.receive, h1, h2]

/-- Witness for C9: an empty datagram from a new source produces no
receiver calls and migrates the remote address. -/
theorem receive_empty_total_witness :
    (IceConn.receive ⟨⟨1, 5000⟩, true, true⟩ [] ⟨2, 6000⟩).2 = [] ∧
    (IceConn.receive ⟨⟨1, 5000⟩, true, true⟩ [] ⟨2, 6000⟩).1.remote_addr
        = ⟨2, 6000⟩ :=
  ⟨(receive_empty_total ⟨⟨1, 5000⟩, true, true⟩ ⟨2, 6000⟩).1,
   (receive_empty_total ⟨⟨1, 5000⟩, true, true⟩ ⟨2, 6000⟩).2.2
      (by decide) (by decide)⟩

/-! ## Association-list maps

`std::collections::HashMap` with the `entry(k).or_default()` idiom, as an
association list: `alUpdate m k f d` mutates the entry at `k` through `f`,
inserting `f d` when the key is absent; `alGet` is lookup.  (Iteration
order of a Rust HashMap is arbitrary; all map claims below are stated as
lookups or membership, never as positions.) -/

def alGet {V : Type} : List (Nat × V) → Nat → Option V
  | [], _ => none
  | (k', v) :: rest, k => if k' = k then some v else alGet rest k

def alUpdate {V : Type} (m : List (Nat × V)) (k : Nat) (f : V → V) (d : V) :
    List (Nat × V) :=
  match m with
  | [] => [(k, f d)]
  | (k', v) :: rest =>
      if k' = k then (k, f v) :: rest else (k', v) :: alUpdate rest k f d

theorem alGet_alUpdate_self {V : Type} (m : List (Nat × V)) (k : Nat)
    (f : V → V) (d : V) :
    alGet (alUpdate m k f d) k = some (f ((alGet m k).getD d)) := by
  induction m with
  | nil => simp [alGet, alUpdate]
  | cons kv rest ih =>
    obtain ⟨k', v⟩ := kv
    by_cases h : k' = k <;> simp [alGet, alUpdate, h, ih]

theorem alGet_alUpdate_ne {V : Type} (m : List (Nat × V)) (k k₂ : Nat)
    (f : V → V) (d : V) (h : k₂ ≠ k) :
    alGet (alUpdate m k f d) k₂ = alGet m k₂ := by
  induction m with
  | nil => simp [alGet, alUpdate, Ne.symm h]
  | cons kv rest ih =>
    obtain ⟨k', v⟩ := kv
    simp only [alUpdate]
    by_cases h2 : k' = k
    · subst h2
      simp [alGet, Ne.symm h]
    · simp only [if_neg h2]
      by_cases h3 : k' = k₂ <;> simp [alGet, h3, ih]

theorem alGet_mem {V : Type} {m : List (Nat × V)} {k : Nat} {v : V}
    (h : alGet m k = some v) : (k, v) ∈ m := by
  induction m with
  | nil => simp [alGet] at h
  | cons kv rest ih =>
    obtain ⟨k', v'⟩ := kv
    by_cases h2 : k' = k
    · subst h2
      simp [alGet] at h
      subst h
      exact List.mem_cons_self _ _
    · simp only [alGet, if_neg h2] at h
      exact List.mem_cons_of_mem _ (ih h)

/-! ## StatsCollector (src/stats_collector.rs)

The four per-SSRC stats records.  `last_updated : SystemTime` is dropped
from the model (wall-clock time; no claim mentions it).  `round_trip_time :
Option<f64>` is modelled as `Option Unit`: the source never writes a value
into it (the RTT branch in `handle_rr` is an empty stub), so only its
presence can ever be observed. -/

structure RemoteInboundStats where
  packets_lost : Int
  fraction_lost : Nat
  jitter : Nat
  round_trip_time : Option Unit
deriving DecidableEq, Repr

def RemoteInboundStats.default : RemoteInboundStats :=
  { packets_lost := 0, fraction_lost := 0, jitter := 0, round_trip_time := none }

structure RemoteOutboundStats where
  packets_sent : Nat
  bytes_sent : Nat
  remote_timestamp : Nat
deriving DecidableEq, Repr

def RemoteOutboundStats.default : RemoteOutboundStats :=
  { packets_sent := 0, bytes_sent := 0, remote_timestamp := 0 }

structure LocalInboundStats where
  packets_received : Nat
  bytes_received : Nat
deriving DecidableEq, Repr

def LocalInboundStats.default : LocalInboundStats :=
  { packets_received := 0, bytes_received := 0 }

structure LocalOutboundStats where
  packets_sent : Nat
  bytes_sent : Nat
deriving DecidableEq, Repr

def LocalOutboundStats.default : LocalOutboundStats :=
  { packets_sent := 0, bytes_sent := 0 }

/-- A report block of an RTCP SR/RR (`crate::rtp::ReportBlock`); fields the
collector reads, plus the two it matches on in the stubbed RTT branch. -/
structure ReportBlock where
  ssrc : Nat
  fraction_lost : Nat
  packets_lost : Int
  highest_sequence : Nat
  jitter : Nat
  last_sender_report : Nat
  delay_since_last_sender_report : Nat
deriving DecidableEq, Repr

structure SenderReport where
  sender_ssrc : Nat
  ntp_most : Nat
  ntp_least : Nat
  rtp_timestamp : Nat
  packet_count : Nat
  octet_count : Nat
  report_blocks : List ReportBlock
deriving DecidableEq, Repr

structure ReceiverReport where
  sender_ssrc : Nat
  report_blocks : List ReportBlock
deriving DecidableEq, Repr

/-- `crate::rtp::RtcpPacket`.  The SR/RR constructors carry the payloads
the collector consumes; the remaining variants (spec section 6 lists BYE
and PLI) fall into the wildcard arm of `process_rtcp`. -/
inductive RtcpPacket where
  | senderReport (sr : SenderReport)
  | receiverReport (rr : ReceiverReport)
  | bye (ssrcs : List Nat)
  | pli (sender_ssrc media_ssrc : Nat)
deriving DecidableEq, Repr

/-- RTP header extension block (`ext.data` is all the collector reads). -/
structure RtpExtension where
  data : List Nat
deriving DecidableEq, Repr

/-- The RTP header fields the stats collector reads: the CSRC list, the
optional extension, and the SSRC. -/
structure RtpHeader where
  csrcs : List Nat
  extension : Option RtpExtension
  ssrc : Nat
deriving DecidableEq, Repr

structure RtpPacket where
  header : RtpHeader
  payload : List Nat
  padding_len : Nat
deriving DecidableEq, Repr

structure StatsCollector where
  remote_inbound : List (Nat × RemoteInboundStats)
  remote_outbound : List (Nat × RemoteOutboundStats)
  local_inbound : List (Nat × LocalInboundStats)
  local_outbound : List (Nat × LocalOutboundStats)
deriving DecidableEq, Repr

def StatsCollector.empty : StatsCollector := ⟨[], [], [], []⟩

/-- `StatsCollector::packet_size` (stats_collector.rs lines 146-154):
`12 + 4·|CSRC| + (4 + |ext.data| if ext) + |payload| + padding_len`. -/
def StatsCollector.packet_size (packet : RtpPacket) : Nat :=
  let size := 12 + packet.header.csrcs.length * 4
  let size := size + (match packet.header.extension with
    | some ext => 4 + ext.data.length
    | none => 0)
  let size := size + packet.payload.length
  size + packet.padding_len

/-- One report-block update of `remote_inbound` (the shared loop body of
`handle_sr` and `handle_rr`): overwrite `packets_lost`, `fraction_lost`
and `jitter` of the entry at `block.ssrc`, creating it by `Default` when
absent.  The RTT branch of `handle_rr` is an empty stub in the source. -/
def StatsCollector.applyBlock (m : List (Nat × RemoteInboundStats))
    (block : ReportBlock) : List (Nat × RemoteInboundStats) :=
  alUpdate m block.ssrc
    (fun s => { s with
      packets_lost := block.packets_lost
      fraction_lost := block.fraction_lost
      jitter := block.jitter })
    RemoteInboundStats.default

/-- `StatsCollector::handle_sr` (lines 106-125): store the sender stats
under `sender_ssrc` in `remote_outbound`, then apply every report block to
`remote_inbound`. -/
def StatsCollector.handle_sr (c : StatsCollector) (sr : SenderReport) :
    StatsCollector :=
  let c := { c with
    remote_outbound := alUpdate c.remote_outbound sr.sender_ssrc
      (fun s => { s with
        packets_sent := sr.packet_count
        bytes_sent := sr.octet_count
        remote_timestamp := sr.ntp_least })
      RemoteOutboundStats.default }
  { c with
    remote_inbound := sr.report_blocks.foldl StatsCollector.applyBlock c.remote_inbound }

/-- `StatsCollector::handle_rr` (lines 127-144). -/
def StatsCollector.handle_rr (c : StatsCollector) (rr : ReceiverReport) :
    StatsCollector :=
  { c with
    remote_inbound := rr.report_blocks.foldl StatsCollector.applyBlock c.remote_inbound }

/-- `StatsCollector::process_rtcp` (lines 98-104). -/
def StatsCollector.process_rtcp (c : StatsCollector) (packet : RtcpPacket) :
    StatsCollector :=
  match packet with
  | RtcpPacket.senderReport sr => c.handle_sr sr
  | RtcpPacket.receiverReport rr => c.handle_rr rr
  | _ => c

/-- `on_packet_sent` (lines 159-166).  `packets_sent` and `bytes_sent` are
Rust `u64` counters updated with `+=`, hence the `% 2^64`. -/
def StatsCollector.on_packet_sent (c : StatsCollector) (packet : RtpPacket) :
    StatsCollector :=
  let size := StatsCollector.packet_size packet
  { c with
    local_outbound := alUpdate c.local_outbound packet.header.ssrc
      (fun s => { s with
        packets_sent := (s.packets_sent + 1) % 2 ^ 64
        bytes_sent := (s.bytes_sent + size) % 2 ^ 64 })
      LocalOutboundStats.default }

/-- `on_packet_received` (lines 171-179); the interceptor returns `None`,
dropped in the model. -/
def StatsCollector.on_packet_received (c : StatsCollector) (packet : RtpPacket) :
    StatsCollector :=
  let size := StatsCollector.packet_size packet
  { c with
    local_inbound := alUpdate c.local_inbound packet.header.ssrc
      (fun s => { s with
        packets_received := (s.packets_received + 1) % 2 ^ 64
        bytes_received := (s.bytes_received + size) % 2 ^ 64 })
      LocalInboundStats.default }

/-- A snapshot entry (`StatsEntry` of src/stats.rs): one constructor per
`StatsKind`, carrying exactly the values `collect` writes into the value
bag. -/
inductive StatsEntry where
  | remoteInboundRtp (ssrc : Nat) (packetsLost : Int) (fractionLost : Nat)
      (jitter : Nat) (roundTripTime : Option Unit)
  | remoteOutboundRtp (ssrc : Nat) (packetsSent : Nat) (bytesSent : Nat)
  | inboundRtp (ssrc : Nat) (packetsReceived : Nat) (bytesReceived : Nat)
  | outboundRtp (ssrc : Nat) (packetsSent : Nat) (bytesSent : Nat)
deriving DecidableEq, Repr

/-- `StatsProvider::collect` (lines 184-249): one entry per map entry, in
the source's map order `remote_inbound, remote_outbound, local_inbound,
local_outbound`. -/
def StatsCollector.collect (c : StatsCollector) : List StatsEntry :=
  (c.remote_inbound.map (fun kv =>
    StatsEntry.remoteInboundRtp kv.1 kv.2.packets_lost kv.2.fraction_lost
      kv.2.jitter kv.2.round_trip_time)) ++
  (c.remote_outbound.map (fun kv =>
    StatsEntry.remoteOutboundRtp kv.1 kv.2.packets_sent kv.2.bytes_sent)) ++
  (c.local_inbound.map (fun kv =>
    StatsEntry.inboundRtp kv.1 kv.2.packets_received kv.2.bytes_received)) ++
  (c.local_outbound.map (fun kv =>
    StatsEntry.outboundRtp kv.1 kv.2.packets_sent kv.2.bytes_sent))

/-- The RTP packet of the spec's stats scenario: empty CSRC list, no
extension, 100-byte payload, no padding — an on-the-wire size of 112. -/
def testOutPacket : RtpPacket := ⟨⟨[], none, 12345⟩, List.replicate 100 0, 0⟩

def testInPacket : RtpPacket := ⟨⟨[], none, 67890⟩, List.replicate 100 0, 0⟩

/-! ## Claim theorems for StatsCollector -/

theorem packet_size_formula (p : RtpPacket) :
    StatsCollector.packet_size p =
      12 + 4 * p.header.csrcs.length +
        (match p.header.extension with
          | some ext => 4 + ext.data.length
          | none => 0) +
        p.payload.length + p.padding_len := by
  cases h : p.header.extension <;>
    simp only [StatsCollector.packet_size, h] <;> ring

theorem foldl_on_packet_sent_eq (s : Nat) (pkts : List RtpPacket) :
    ∀ (c : StatsCollector) (v : LocalOutboundStats),
      alGet c.local_outbound s = some v →
      v.packets_sent < 2 ^ 64 → v.bytes_sent < 2 ^ 64 →
      (∀ p ∈ pkts, p.header.ssrc = s) →
      alGet (pkts.foldl StatsCollector.on_packet_sent c).local_outbound s =
        some ⟨(v.packets_sent + pkts.length) % 2 ^ 64,
              (v.bytes_sent + (pkts.map StatsCollector.packet_size).sum) % 2 ^ 64⟩ := by
  induction pkts with
  | nil =>
    intro c v hv h1 h2 _
    simp only [List.foldl_nil, hv, List.length_nil, List.map_nil, List.sum_nil,
      Nat.add_zero, Option.some.injEq]
    cases v
    simp only [LocalOutboundStats.mk.injEq]
    constructor <;> (simp only [] at h1 h2; omega)
  | cons p rest ih =>
    intro c v hv h1 h2 hs
    have hps : p.header.ssrc = s := hs p (List.mem_cons_self _ _)
    have step : alGet (StatsCollector.on_packet_sent c p).local_outbound s =
        some ⟨(v.packets_sent + 1) % 2 ^ 64,
              (v.bytes_sent + StatsCollector.packet_size p) % 2 ^ 64⟩ := by
      simp only [StatsCollector.on_packet_sent, hps]
      rw [alGet_alUpdate_self]
      simp [hv]
    rw [List.foldl_cons,
      ih _ _ step (Nat.mod_lt _ (by norm_num)) (Nat.mod_lt _ (by norm_num))
        (fun q hq => hs q (List.mem_cons_of_mem _ hq))]
    simp only [List.map_cons, List.sum_cons, List.length_cons,
      Option.some.injEq, LocalOutboundStats.mk.injEq]
    omega

theorem mem_collect_outbound {c : StatsCollector} {s : Nat}
    {v : LocalOutboundStats} (h : (s, v) ∈ c.local_outbound) :
    StatsEntry.outboundRtp s v.packets_sent v.bytes_sent ∈ c.collect :=
  List.mem_append_right _ (List.mem_map_of_mem _ h)

theorem mem_collect_inbound {c : StatsCollector} {s : Nat}
    {v : LocalInboundStats} (h : (s, v) ∈ c.local_inbound) :
    StatsEntry.inboundRtp s v.packets_received v.bytes_received ∈ c.collect :=
  List.mem_append_left _ (List.mem_append_right _ (List.mem_map_of_mem _ h))

/-- Claim C3: after any non-empty run of `on_packet_sent` calls for one
SSRC (staying below the u64 wrap point), the snapshot's OutboundRtp entry
for that SSRC carries `packetsSent` = number of calls and `bytesSent` = the
sum of `12 + 4·|CSRC| + (4 + |ext_data| if ext) + |payload| + padding` over
the calls; and the spec's concrete scenario (two 112-byte sends on SSRC
12345, one receive on SSRC 67890) snapshots to
`OutboundRtp{12345, 2, 224}` and `InboundRtp{67890, 1, 112}`. -/
theorem stats_collector_counts :
    (∀ (s : Nat) (pkts : List RtpPacket), pkts ≠ [] →
      (∀ p ∈ pkts, p.header.ssrc = s) →
      pkts.length < 2 ^ 64 →
      (pkts.map (fun p => 12 + 4 * p.header.csrcs.length +
          (match p.header.extension with
            | some ext => 4 + ext.data.length
            | none => 0) +
          p.payload.length + p.padding_len)).sum < 2 ^ 64 →
      StatsEntry.outboundRtp s pkts.length
          ((pkts.map (fun p => 12 + 4 * p.header.csrcs.length +
            (match p.header.extension with
              | some ext => 4 + ext.data.length
              | none => 0) +
            p.payload.length + p.padding_len)).sum)
        ∈ (pkts.foldl StatsCollector.on_packet_sent StatsCollector.empty).collect) ∧
    (StatsEntry.outboundRtp 12345 2 224 ∈
        (((StatsCollector.empty.on_packet_sent testOutPacket).on_packet_sent
          testOutPacket).on_packet_received testInPacket).collect ∧
     StatsEntry.inboundRtp 67890 1 112 ∈
        (((StatsCollector.empty.on_packet_sent testOutPacket).on_packet_sent
          testOutPacket).on_packet_received testInPacket).collect) := by
  constructor
  · intro s pkts hne hs hcount hbytes
    have hmap : pkts.map (fun p => 12 + 4 * p.header.csrcs.length +
        (match p.header.extension with
          | some ext => 4 + ext.data.length
          | none => 0) +
        p.payload.length + p.padding_len) = pkts.map StatsCollector.packet_size :=
      List.map_congr_left (fun p _ => (packet_size_formula p).symm)
    rw [hmap] at hbytes ⊢
    obtain ⟨p, rest, rfl⟩ := List.exists_cons_of_ne_nil hne
    have hps : p.header.ssrc = s := hs p (List.mem_cons_self _ _)
    have step : alGet (StatsCollector.on_packet_sent StatsCollector.empty p).local_outbound s =
        some ⟨1 % 2 ^ 64, StatsCollector.packet_size p % 2 ^ 64⟩ := by
      simp only [StatsCollector.on_packet_sent, hps, StatsCollector.empty]
      rw [alGet_alUpdate_self]
      simp [alGet, LocalOutboundStats.default]
    have hfold := foldl_on_packet_sent_eq s rest
      (StatsCollector.on_packet_sent StatsCollector.empty p)
      ⟨1 % 2 ^ 64, StatsCollector.packet_size p % 2 ^ 64⟩ step
      (Nat.mod_lt _ (by norm_num)) (Nat.mod_lt _ (by norm_num))
      (fun q hq => hs q (List.mem_cons_of_mem _ hq))
    rw [List.foldl_cons] at *
    have hval : ((1 : Nat) % 2 ^ 64 + rest.length) % 2 ^ 64 = (p :: rest).length ∧
        (StatsCollector.packet_size p % 2 ^ 64 +
          (rest.map StatsCollector.packet_size).sum) % 2 ^ 64 =
          ((p :: rest).map StatsCollector.packet_size).sum := by
      simp only [List.length_cons, List.map_cons, List.sum_cons] at *
      constructor <;> omega
    rw [hval.1, hval.2] at hfold
    exact mem_collect_outbound (alGet_mem hfold)
  · constructor <;> decide

/-- Witness for C3: the general law applied to the two-send scenario of
the spec, yielding the OutboundRtp{12345, 2, 224} entry. -/
theorem stats_collector_counts_witness :
    StatsEntry.outboundRtp 12345 2 224 ∈
      ([testOutPacket, testOutPacket].foldl StatsCollector.on_packet_sent
        StatsCollector.empty).collect :=
  stats_collector_counts.1 12345 [testOutPacket, testOutPacket]
    (by decide) (by decide) (by decide) (by decide)

/-- Folding report blocks none of which carries SSRC `k` leaves the
`remote_inbound` entry at `k` untouched. -/
theorem foldl_applyBlock_ne (l : List ReportBlock) :
    ∀ (m : List (Nat × RemoteInboundStats)) (k : Nat),
      (∀ x ∈ l, x.ssrc ≠ k) →
      alGet (l.foldl StatsCollector.applyBlock m) k = alGet m k := by
  induction l with
  | nil => intro m k _; rfl
  | cons b rest ih =>
    intro m k h
    rw [List.foldl_cons, ih _ _ (fun x hx => h x (List.mem_cons_of_mem _ hx)),
      StatsCollector.applyBlock,
      alGet_alUpdate_ne _ _ _ _ _ (Ne.symm (h b (List.mem_cons_self _ _)))]

/-- `applyBlock` overwrites the three loss fields of the entry at the
block's SSRC with the block's values. -/
theorem applyBlock_self (m : List (Nat × RemoteInboundStats)) (b : ReportBlock) :
    (alGet (StatsCollector.applyBlock m b) b.ssrc).map
        (fun v => (v.packets_lost, v.fraction_lost, v.jitter)) =
      some (b.packets_lost, b.fraction_lost, b.jitter) := by
  rw [StatsCollector.applyBlock, alGet_alUpdate_self]
  rfl

/-- The SR in which two report blocks carry the same SSRC 7, with
different jitter values 5 and 9: the second write wins. -/
def dupBlockSR : SenderReport :=
  { sender_ssrc := 1, ntp_most := 0, ntp_least := 0, rtp_timestamp := 0,
    packet_count := 50, octet_count := 5000,
    report_blocks := [⟨7, 0, 0, 0, 5, 0, 0⟩, ⟨7, 0, 0, 0, 9, 0, 0⟩] }

/-- Counterexample to claim C4 as stated: in a SenderReport with two
report blocks for the same SSRC, the remote-inbound entry cannot hold each
block's values — the first block (jitter 5) is overwritten by the second
(jitter 9). -/
theorem process_rtcp_dup_block_cex :
    ¬ (∀ b ∈ dupBlockSR.report_blocks,
        (alGet (StatsCollector.empty.process_rtcp
            (RtcpPacket.senderReport dupBlockSR)).remote_inbound b.ssrc).map
          (fun v => (v.packets_lost, v.fraction_lost, v.jitter)) =
        some (b.packets_lost, b.fraction_lost, b.jitter)) := by
  decide

/-- Claim C4 (amended): for every SenderReport or ReceiverReport processed
by `process_rtcp` and for each report block after which no later block in
the same report carries the same SSRC (in particular, for every block when
block SSRCs are distinct), the remote-inbound entry keyed by the block's
SSRC afterwards holds exactly that block's `packets_lost`, `fraction_lost`
and `jitter`; for a SenderReport, the remote-outbound entry keyed by
`sender_ssrc` additionally holds `packets_sent` = `packet_count` and
`bytes_sent` = `octet_count`. -/
theorem process_rtcp_stores_reports :
    (∀ (c : StatsCollector) (sr : SenderReport),
      (alGet (c.process_rtcp (RtcpPacket.senderReport sr)).remote_outbound
          sr.sender_ssrc).map (fun v => (v.packets_sent, v.bytes_sent)) =
        some (sr.packet_count, sr.octet_count) ∧
      ∀ (l₁ : List ReportBlock) (b : ReportBlock) (l₂ : List ReportBlock),
        sr.report_blocks = l₁ ++ b :: l₂ → (∀ x ∈ l₂, x.ssrc ≠ b.ssrc) →
        (alGet (c.process_rtcp (RtcpPacket.senderReport sr)).remote_inbound
            b.ssrc).map (fun v => (v.packets_lost, v.fraction_lost, v.jitter)) =
          some (b.packets_lost, b.fraction_lost, b.jitter)) ∧
    (∀ (c : StatsCollector) (rr : ReceiverReport),
      ∀ (l₁ : List ReportBlock) (b : ReportBlock) (l₂ : List ReportBlock),
        rr.report_blocks = l₁ ++ b :: l₂ → (∀ x ∈ l₂, x.ssrc ≠ b.ssrc) →
        (alGet (c.process_rtcp (RtcpPacket.receiverReport rr)).remote_inbound
            b.ssrc).map (fun v => (v.packets_lost, v.fraction_lost, v.jitter)) =
          some (b.packets_lost, b.fraction_lost, b.jitter)) := by
  constructor
  · intro c sr
    constructor
    · simp only [StatsCollector.process_rtcp, StatsCollector.handle_sr]
      rw [alGet_alUpdate_self]
      rfl
    · intro l₁ b l₂ hsplit hlast
      simp only [StatsCollector.process_rtcp, StatsCollector.handle_sr, hsplit]
      rw [List.foldl_append, List.foldl_cons, foldl_applyBlock_ne _ _ _ hlast,
        applyBlock_self]
  · intro c rr l₁ b l₂ hsplit hlast
    simp only [StatsCollector.process_rtcp, StatsCollector.handle_rr, hsplit]
    rw [List.foldl_append, List.foldl_cons, foldl_applyBlock_ne _ _ _ hlast,
      applyBlock_self]

/-- Witness for the amended C4: a concrete SR stores the sender stats and
the (unique) report block values. -/
theorem process_rtcp_stores_reports_witness :
    (alGet (StatsCollector.empty.process_rtcp (RtcpPacket.senderReport
        { sender_ssrc := 12345, ntp_most := 0, ntp_least := 1000,
          rtp_timestamp := 0, packet_count := 50, octet_count := 5000,
          report_blocks := [⟨67890, 10, 5, 100, 20, 0, 0⟩] })).remote_outbound
        12345).map (fun v => (v.packets_sent, v.bytes_sent)) = some (50, 5000) ∧
    (alGet (StatsCollector.empty.process_rtcp (RtcpPacket.senderReport
        { sender_ssrc := 12345, ntp_most := 0, ntp_least := 1000,
          rtp_timestamp := 0, packet_count := 50, octet_count := 5000,
          report_blocks := [⟨67890, 10, 5, 100, 20, 0, 0⟩] })).remote_inbound
        67890).map (fun v => (v.packets_lost, v.fraction_lost, v.jitter)) =
      some (5, 10, 20) :=
  ⟨(process_rtcp_stores_reports.1 StatsCollector.empty _).1,
   (process_rtcp_stores_reports.1 StatsCollector.empty _).2 []
      ⟨67890, 10, 5, 100, 20, 0, 0⟩ [] rfl
      (fun x hx => absurd hx (List.not_mem_nil x))⟩

/-- Claim C10: `process_rtcp` on any RTCP packet that is neither a
SenderReport nor a ReceiverReport (BYE, PLI) leaves the collector — all
four stats maps — unchanged, so a snapshot afterwards equals one taken
before. -/
theorem process_rtcp_non_report_noop (c : StatsCollector) (packet : RtcpPacket)
    (hsr : ∀ sr, packet ≠ RtcpPacket.senderReport sr)
    (hrr : ∀ rr, packet ≠ RtcpPacket.receiverReport rr) :
    c.process_rtcp packet = c ∧ (c.process_rtcp packet).collect = c.collect := by
  cases packet with
  | senderReport sr => exact absurd rfl (hsr sr)
  | receiverReport rr => exact absurd rfl (hrr rr)
  | bye ssrcs => exact ⟨rfl, rfl⟩
  | pli a b => exact ⟨rfl, rfl⟩

/-- Witness for C10: a PLI leaves a non-empty collector and its snapshot
unchanged. -/
theorem process_rtcp_non_report_noop_witness :
    (StatsCollector.process_rtcp
        ⟨[(7, ⟨5, 10, 20, none⟩)], [], [], [(12345, ⟨2, 224⟩)]⟩
        (RtcpPacket.pli 1 2)) =
      ⟨[(7, ⟨5, 10, 20, none⟩)], [], [], [(12345, ⟨2, 224⟩)]⟩ ∧
    (StatsCollector.process_rtcp
        ⟨[(7, ⟨5, 10, 20, none⟩)], [], [], [(12345, ⟨2, 224⟩)]⟩
        (RtcpPacket.pli 1 2)).collect =
      StatsCollector.collect ⟨[(7, ⟨5, 10, 20, none⟩)], [], [], [(12345, ⟨2, 224⟩)]⟩ :=
  process_rtcp_non_report_noop _ (RtcpPacket.pli 1 2)
    (fun sr h => by cases h) (fun rr h => by cases h)

/-! ## extract_payload_map (tests/rtp_reinvite_test.rs, lines 424-460)

The helper mirrors the library's private `extract_payload_map`.  String
splitting is modelled on character lists (structural recursion so that
concrete inputs evaluate): `splitFields p` is Rust `split` on a separator
predicate (keeping empty fields, as `str::split` does); Rust
`split_whitespace` additionally drops empty fields. -/

def splitFields (p : Char → Bool) : List Char → List (List Char)
  | [] => [[]]
  | c :: rest =>
    let r := splitFields p rest
    if p c then [] :: r
    else
      match r with
      | f :: fs => (c :: f) :: fs
      | [] => [[c]]

/-- Rust `str::split_whitespace`: split on whitespace runs, no empty
tokens.  (ASCII whitespace suffices for SDP attribute values.) -/
def splitWhitespaceChars (s : List Char) : List (List Char) :=
  (splitFields Char.isWhitespace s).filter (fun f => !f.isEmpty)

/-- Rust `str::parse::<uN>` for an unsigned integer type with maximum
value `maxVal`: an optional leading plus sign, then at least one ASCII
digit, rejecting overflow. -/
def parseUnsigned (maxVal : Nat) (s : List Char) : Option Nat :=
  let digits := match s with
    | '+' :: rest => rest
    | _ => s
  if digits.isEmpty then none
  else if digits.all Char.isDigit then
    let n := digits.foldl (fun acc c => acc * 10 + (c.toNat - 48)) 0
    if n ≤ maxVal then some n else none
  else none

/-- `HashMap::insert`: replace the value at the key or add the entry. -/
def alInsert {V : Type} (m : List (Nat × V)) (k : Nat) (v : V) :
    List (Nat × V) :=
  alUpdate m k (fun _ => v) v

/-- An SDP media-section attribute `a=<key>[:<value>]`. -/
structure MediaAttribute where
  key : String
  value : Option String
deriving DecidableEq, Repr

/-- The slice of `rustrtc::MediaSection` the helper reads. -/
structure MediaSection where
  attributes : List MediaAttribute
deriving DecidableEq, Repr

/-- `rustrtc::peer_connection::RtpCodecParameters`; `payload_type` is u8,
`clock_rate` u32; `channels` is taken as u16 (its width is outside the
sources at hand and only bounds the overflow cut-off of `parse`). -/
structure RtpCodecParameters where
  payload_type : Nat
  clock_rate : Nat
  channels : Nat
deriving DecidableEq, Repr

/-- The per-attribute parse of the helper's loop body, mirroring its
nesting: key must be `rtpmap` with a value; the value must split into at
least two whitespace tokens; the first token must parse as u8; the second
token must split on the slash into at least two parts.  Then `clock_rate`
is the second part parsed with `unwrap_or(90000)` and `channels` the third
part (when present) parsed with `unwrap_or(0)`, else 0. -/
def rtpmapParse (attr : MediaAttribute) : Option (Nat × RtpCodecParameters) :=
  if attr.key = "rtpmap" then
    match attr.value with
    | none => none
    | some val =>
      match splitWhitespaceChars val.toList with
      | p0 :: p1 :: _ =>
        match parseUnsigned 255 p0 with
        | none => none
        | some pt =>
          match splitFields (fun c => c == '/') p1 with
          | _ :: c1 :: restC =>
            some (pt,
              { payload_type := pt
                clock_rate := (parseUnsigned 4294967295 c1).getD 90000
                channels := match restC with
                  | [] => 0
                  | c2 :: _ => (parseUnsigned 65535 c2).getD 0 })
          | _ => none
      | _ => none
  else none

/-- The loop body: insert the parsed entry, or leave the map alone. -/
def rtpmapStep (payload_map : List (Nat × RtpCodecParameters))
    (attr : MediaAttribute) : List (Nat × RtpCodecParameters) :=
  match rtpmapParse attr with
  | some (pt, params) => alInsert payload_map pt params
  | none => payload_map

/-- `extract_payload_map_helper`: fold the loop body over the section's
attributes, starting from the empty map.  (The Rust parameter is named
`section`, a keyword here.) -/
def extract_payload_map (sec : MediaSection) :
    List (Nat × RtpCodecParameters) :=
  sec.attributes.foldl rtpmapStep []

/-! ## Claim theorems for extract_payload_map -/

/-- Folding attributes none of which parses to payload type `k` leaves the
map entry at `k` untouched. -/
theorem foldl_rtpmapStep_ne (l : List MediaAttribute) :
    ∀ (m : List (Nat × RtpCodecParameters)) (k : Nat),
      (∀ x ∈ l, ∀ q w, rtpmapParse x = some (q, w) → q ≠ k) →
      alGet (l.foldl rtpmapStep m) k = alGet m k := by
  induction l with
  | nil => intro m k _; rfl
  | cons attr rest ih =>
    intro m k h
    rw [List.foldl_cons, ih _ _ (fun x hx => h x (List.mem_cons_of_mem _ hx))]
    cases hp : rtpmapParse attr with
    | none => simp [rtpmapStep, hp]
    | some qw =>
      obtain ⟨q, w⟩ := qw
      have hq : q ≠ k := h attr (List.mem_cons_self _ _) q w hp
      simp only [rtpmapStep, hp, alInsert]
      exact alGet_alUpdate_ne _ _ _ _ _ (Ne.symm hq)

/-- Counterexample to claim C6 as stated: the rtpmap line
`a=rtpmap:111 opus/xyz`, whose rate token is not a valid number, yields a
defaulted mapping `111 → (90000, 0)` rather than no mapping — the helper
parses the rate/channels tokens with `unwrap_or(90000)` / `unwrap_or(0)`. -/
theorem extract_payload_map_default_rate_cex :
    alGet (extract_payload_map ⟨[⟨"rtpmap", some "111 opus/xyz"⟩]⟩) 111
        = some ⟨111, 90000, 0⟩ ∧
      alGet (extract_payload_map ⟨[⟨"rtpmap", some "111 opus/xyz"⟩]⟩) 111
        ≠ none := by
  constructor <;> decide

/-- Claim C6 (amended): for every media section, each attribute
`a=rtpmap:<pt> <codec>/<rate>[/<channels>]` whose payload type is not
re-bound by a later attribute emits the entry
`pt → (rate parsed or 90000 on parse failure, channels parsed or 0 when
absent or on parse failure)`; attributes that fail the structural checks
(key not `rtpmap`, no value, fewer than two whitespace tokens, unparseable
payload type, codec token without a slash) contribute no entry; concrete
instances: a fully well-formed line, a channel-less line, the defaulted
invalid-rate line, and three structurally malformed lines. -/
theorem extract_payload_map_entries :
    (∀ (l₁ l₂ : List MediaAttribute) (attr : MediaAttribute) (pt : Nat)
        (params : RtpCodecParameters),
      rtpmapParse attr = some (pt, params) →
      (∀ x ∈ l₂, ∀ q w, rtpmapParse x = some (q, w) → q ≠ pt) →
      alGet (extract_payload_map ⟨l₁ ++ attr :: l₂⟩) pt = some params) ∧
    (∀ (l₁ l₂ : List MediaAttribute) (attr : MediaAttribute),
      rtpmapParse attr = none →
      extract_payload_map ⟨l₁ ++ attr :: l₂⟩ = extract_payload_map ⟨l₁ ++ l₂⟩) ∧
    (rtpmapParse ⟨"rtpmap", some "111 opus/48000/2"⟩ =
        some (111, ⟨111, 48000, 2⟩) ∧
     rtpmapParse ⟨"rtpmap", some "96 H264/90000"⟩ = some (96, ⟨96, 90000, 0⟩) ∧
     rtpmapParse ⟨"rtpmap", some "111 opus/xyz"⟩ = some (111, ⟨111, 90000, 0⟩) ∧
     rtpmapParse ⟨"rtpmap", some "xx opus/48000"⟩ = none ∧
     rtpmapParse ⟨"rtpmap", some "111"⟩ = none ∧
     rtpmapParse ⟨"rtpmap", some "111 opus"⟩ = none ∧
     rtpmapParse ⟨"fmtp", some "111 opus/48000/2"⟩ = none) := by
  refine ⟨?_, ?_, ?_⟩
  · intro l₁ l₂ attr pt params hp hl₂
    simp only [extract_payload_map, List.foldl_append, List.foldl_cons]
    rw [foldl_rtpmapStep_ne _ _ _ hl₂]
    simp only [rtpmapStep, hp, alInsert]
    rw [alGet_alUpdate_self]
  · intro l₁ l₂ attr hp
    simp only [extract_payload_map, List.foldl_append, List.foldl_cons,
      rtpmapStep, hp]
  · refine ⟨?_, ?_, ?_, ?_, ?_, ?_, ?_⟩ <;> decide

/-- Witness for the amended C6: the general entry law applied to a
two-attribute section in which the malformed `78 bogus` line contributes
nothing and `111 opus/48000/2` emits its entry. -/
theorem extract_payload_map_entries_witness :
    alGet (extract_payload_map ⟨[⟨"rtpmap", some "78 bogus"⟩,
        ⟨"rtpmap", some "111 opus/48000/2"⟩]⟩) 111 = some ⟨111, 48000, 2⟩ :=
  extract_payload_map_entries.1 [⟨"rtpmap", some "78 bogus"⟩] []
    ⟨"rtpmap", some "111 opus/48000/2"⟩ 111 ⟨111, 48000, 2⟩
    (by decide) (fun x hx => absurd hx (List.not_mem_nil x))

/-! ## RTP sender header construction (spec section 4.4, steps 2-3)

The sender/packet-builder source is not among the files at hand (only the
test tests/rtp_mode_extensions_test.rs exercises it), so it is modelled
from the spec. -/

/-- Modelled from the spec: the sender state of spec section 4.4 — the
transceiver's `extMap` (extension id to URI) and the set of extension ids
the sender knows how to populate (empty in the minimum core); the sender
source itself is missing from the sources at hand. -/
structure RtpSenderState where
  extMap : List (Nat × String)
  knownExtensions : List Nat
  ssrc : Nat
  payload_type : Nat
deriving Repr

/-- Modelled from the spec: an outbound media sample (spec section 3),
carrying the payload bytes and the end-of-frame marker. -/
structure OutMediaSample where
  rtpTimestamp : Nat
  data : List Nat
  is_last_packet : Bool
deriving Repr

/-- Modelled from the spec: "The set of emitted extensions equals the
intersection of `extMap` and what the sender knows how to populate"
(spec section 4.4, step 3). -/
def emittedExtensions (s : RtpSenderState) : List (Nat × String) :=
  s.extMap.filter (fun e => s.knownExtensions.contains e.1)

/-- Modelled from the spec: RTP header construction (spec section 4.4,
step 2) — version 2 in the top bits of byte 0, the X bit (0x10) set only
if at least one extension is emitted, the marker and payload type in byte
1, the one-byte-extension profile block present only under X, then the
payload.  Returns the serialized datagram and the emitted extension
elements. -/
def buildRtpDatagram (s : RtpSenderState) (sample : OutMediaSample) :
    List Nat × List (Nat × String) :=
  let emitted := emittedExtensions s
  let x := !emitted.isEmpty
  let byte0 := 128 + (if x then 16 else 0)
  let byte1 := (if sample.is_last_packet then 128 else 0) + s.payload_type % 128
  (byte0 :: byte1 :: ((if x then [190, 222] else []) ++ sample.data), emitted)

/-- Claim C7: when the sender's effective `extMap` is empty, every
produced RTP datagram has the header extension flag clear —
`byte[0] &&& 0x10 = 0` — and no extension elements are emitted. -/
theorem sender_empty_extmap_x_bit_zero (s : RtpSenderState)
    (sample : OutMediaSample) (h : s.extMap = []) :
    ((buildRtpDatagram s sample).1.headD 0) &&& 16 = 0 ∧
    (buildRtpDatagram s sample).2 = [] := by
  have hemit : emittedExtensions s = [] := by simp [emittedExtensions, h]
  constructor
  · simp [buildRtpDatagram, hemit]
    decide
  · simp [buildRtpDatagram, hemit]

/-- Witness for C7: a video sender with no negotiated extensions produces
a datagram whose first byte has the X bit clear. -/
theorem sender_empty_extmap_x_bit_zero_witness :
    ((buildRtpDatagram ⟨[], [], 1111, 96⟩ ⟨3000, [0, 0], true⟩).1.headD 0)
        &&& 16 = 0 ∧
    (buildRtpDatagram ⟨[], [], 1111, 96⟩ ⟨3000, [0, 0], true⟩).2 = [] :=
  sender_empty_extmap_x_bit_zero ⟨[], [], 1111, 96⟩ ⟨3000, [0, 0], true⟩ rfl

/-! ## Receiver latching dispatch (spec section 4.4)

The receiver/latching source is not among the files at hand (only the test
tests/rtp_mode_bug_repro.rs exercises it), so the corrected design stated
by the spec is modelled: on the first matching packet the receiver
registers its permanent SSRC handler before surfacing the track event and
re-dispatches that packet to the same handler. -/

/-- Modelled from the spec: the fields of an inbound RTP packet the
latching dispatch inspects — payload type, SSRC, and a sequence number
identifying the packet. -/
structure RxPacket where
  pt : Nat
  ssrc : Nat
  seq : Nat
deriving DecidableEq, Repr

/-- Modelled from the spec: the observable events of the latching
dispatch — registration of the permanent SSRC handler, the `Track` event
surfaced to the application, and a media sample delivered on the track. -/
inductive RxEvent where
  | registerHandler (ssrc : Nat)
  | trackEvent
  | sample (seq : Nat)
deriving DecidableEq, Repr

def RxEvent.isSample : RxEvent → Bool
  | RxEvent.sample _ => true
  | _ => false

/-- Modelled from the spec: receiver latching state — the bound SSRC, if
any, and whether the permanent handler is registered. -/
structure RxState where
  boundSsrc : Option Nat
  handlerRegistered : Bool
deriving DecidableEq, Repr

/-- Modelled from the spec: dispatch of one inbound packet (spec sections
4.4 and 7).  A packet whose payload type is outside the payload map is
dropped; with no bound SSRC, a matching packet adopts its SSRC,
registers the permanent handler, then surfaces the track event, then is
re-dispatched to that handler; with a bound SSRC, matching packets yield a
sample and others are logged and dropped. -/
def latchStep (payloadMap : List Nat) (st : RxState) (p : RxPacket) :
    RxState × List RxEvent :=
  if payloadMap.contains p.pt then
    match st.boundSsrc with
    | none =>
        ({ boundSsrc := some p.ssrc, handlerRegistered := true },
         [RxEvent.registerHandler p.ssrc, RxEvent.trackEvent, RxEvent.sample p.seq])
    | some s =>
        if p.ssrc = s then (st, [RxEvent.sample p.seq]) else (st, [])
  else (st, [])

/-- Modelled from the spec: the receive loop, dispatching packets in wire
order and concatenating their event traces. -/
def latchRun (payloadMap : List Nat) (st : RxState) :
    List RxPacket → RxState × List RxEvent
  | [] => (st, [])
  | p :: rest =>
    let s2 := latchStep payloadMap st p
    let s3 := latchRun payloadMap s2.1 rest
    (s3.1, s2.2 ++ s3.2)

/-- Every event of a mapped sample trace is a sample. -/
theorem filter_isSample_map (l : List RxPacket) :
    ((l.map (fun p => RxEvent.sample p.seq)).filter RxEvent.isSample).length
      = l.length := by
  induction l with
  | nil => rfl
  | cons a t ih => simp [List.filter_cons, RxEvent.isSample, ih]

/-- Once latched to SSRC `s` with the handler registered, every further
packet matching the payload map and `s` yields exactly one sample. -/
theorem latchRun_bound (payloadMap : List Nat) (s : Nat)
    (pkts : List RxPacket)
    (h : ∀ p ∈ pkts, payloadMap.contains p.pt = true ∧ p.ssrc = s) :
    latchRun payloadMap ⟨some s, true⟩ pkts =
      (⟨some s, true⟩, pkts.map (fun p => RxEvent.sample p.seq)) := by
  induction pkts with
  | nil => rfl
  | cons p rest ih =>
    obtain ⟨hpt, hssrc⟩ := h p (List.mem_cons_self _ _)
    have hmem : p.pt ∈ payloadMap := by simpa using hpt
    have step : latchStep payloadMap ⟨some s, true⟩ p =
        (⟨some s, true⟩, [RxEvent.sample p.seq]) := by
      simp [latchStep, hmem, hssrc]
    simp only [latchRun, step, ih (fun q hq => h q (List.mem_cons_of_mem _ hq)),
      List.map_cons]
    rfl

/-- Claim C8: with latching enabled and no SDP-signaled SSRC, for any
non-empty run of packets sharing one payload type (present in the payload
map) and one SSRC, the dispatch registers the permanent handler first,
surfaces the track event second, and the track yields one sample per
packet — the first packet included, so at least `n - 1` samples out of
`n`. -/
theorem latching_registers_before_track (payloadMap : List Nat)
    (s : Nat) (pkts : List RxPacket) (hne : pkts ≠ [])
    (h : ∀ p ∈ pkts, payloadMap.contains p.pt = true ∧ p.ssrc = s) :
    (latchRun payloadMap ⟨none, false⟩ pkts).2.take 2 =
        [RxEvent.registerHandler s, RxEvent.trackEvent] ∧
    ((latchRun payloadMap ⟨none, false⟩ pkts).2.filter RxEvent.isSample).length
        = pkts.length ∧
    pkts.length - 1 ≤
      ((latchRun payloadMap ⟨none, false⟩ pkts).2.filter RxEvent.isSample).length := by
  obtain ⟨p, rest, rfl⟩ := List.exists_cons_of_ne_nil hne
  obtain ⟨hpt, hssrc⟩ := h p (List.mem_cons_self _ _)
  have hmem : p.pt ∈ payloadMap := by simpa using hpt
  have step : latchStep payloadMap ⟨none, false⟩ p =
      (⟨some p.ssrc, true⟩,
       [RxEvent.registerHandler p.ssrc, RxEvent.trackEvent, RxEvent.sample p.seq]) := by
    simp [latchStep, hmem]
  have hrest : ∀ q ∈ rest, payloadMap.contains q.pt = true ∧ q.ssrc = p.ssrc := by
    intro q hq
    obtain ⟨h1, h2⟩ := h q (List.mem_cons_of_mem _ hq)
    exact ⟨h1, h2.trans hssrc.symm⟩
  have hE : (latchRun payloadMap ⟨none, false⟩ (p :: rest)).2 =
      [RxEvent.registerHandler p.ssrc, RxEvent.trackEvent, RxEvent.sample p.seq]
        ++ rest.map (fun q => RxEvent.sample q.seq) := by
    simp only [latchRun, step, latchRun_bound payloadMap p.ssrc rest hrest]
  have hlen : ((latchRun payloadMap ⟨none, false⟩ (p :: rest)).2.filter
      RxEvent.isSample).length = rest.length + 1 := by
    rw [hE]
    simp [List.filter_append, List.filter_cons, RxEvent.isSample,
      filter_isSample_map]
  refine ⟨?_, ?_, ?_⟩
  · rw [hE]
    simp [hssrc]
  · rw [hlen, List.length_cons]
  · rw [hlen]
    simp only [List.length_cons]
    omega

/-- Witness for C8: ten packets with payload type 96 and one SSRC produce
the register-then-track prefix and ten samples, hence at least nine. -/
theorem latching_registers_before_track_witness :
    (latchRun [96] ⟨none, false⟩
        ((List.range 10).map (fun i => ⟨96, 1111, i⟩))).2.take 2 =
      [RxEvent.registerHandler 1111, RxEvent.trackEvent] ∧
    ((latchRun [96] ⟨none, false⟩
        ((List.range 10).map (fun i => ⟨96, 1111, i⟩))).2.filter
      RxEvent.isSample).length = 10 ∧
    9 ≤ ((latchRun [96] ⟨none, false⟩
        ((List.range 10).map (fun i => ⟨96, 1111, i⟩))).2.filter
      RxEvent.isSample).length := by
  have := latching_registers_before_track [96] 1111
    ((List.range 10).map (fun i => ⟨96, 1111, i⟩)) (by decide) (by decide)
  simpa using this

end RustRtc
